import Mathlib

/-!
Shallow embedding of the pytasks-api-rest domain and application layers.

Conventions of the embedding:
* `UUID` is modelled as `Nat`.
* `datetime` is modelled as an integer timestamp `DateTime := Int`
  (seconds since the epoch, UTC); `datetime.now(timezone.utc)` becomes an
  explicit `now : DateTime` argument at each call site that reads the clock.
* Python `str` is Lean `String`; character-level rules are stated over
  `String.data` (the list of code points).  `str.isalnum` is modelled for
  the ASCII range by `Char.isAlphanum`.
* Fallible code returns `Except AppError α`; `raise` becomes `.error`.
* Repositories are records of pure lookup functions standing for the state
  of the store at the time of the call; `create`/`update` return the entity
  they persist, exactly as the SQL repositories do.
-/

namespace PyTasks

abbrev UUID := Nat

abbrev DateTime := Int

/-- `app/domain/models/task.py`: `TaskStatus` enumeration. -/
inductive TaskStatus
  | pending
  | in_progress
  | completed
deriving DecidableEq, Repr

/-- `app/domain/models/task.py`: `TaskPriority` enumeration. -/
inductive TaskPriority
  | low
  | medium
  | high
  | critical
deriving DecidableEq, Repr

/-- `app/domain/models/task.py`: the frozen pydantic `Task` entity. -/
structure Task where
  id : UUID
  title : String
  description : Option String
  status : TaskStatus
  priority : TaskPriority
  task_list_id : UUID
  assigned_user_id : Option UUID
  created_at : DateTime
  updated_at : DateTime
  due_date : Option DateTime
  completed_at : Option DateTime
deriving DecidableEq, Repr

/-- `Task.mark_as_in_progress`: copy with status in_progress, fresh
`updated_at`, `completed_at` cleared. -/
def Task.mark_as_in_progress (t : Task) (now : DateTime) : Task :=
  { t with status := .in_progress, updated_at := now, completed_at := none }

/-- `Task.mark_as_completed`: copy with status completed, fresh
`updated_at`, `completed_at` set to the current time. -/
def Task.mark_as_completed (t : Task) (now : DateTime) : Task :=
  { t with status := .completed, updated_at := now, completed_at := some now }

/-- `Task.mark_as_pending`: copy with status pending, fresh `updated_at`,
`completed_at` cleared. -/
def Task.mark_as_pending (t : Task) (now : DateTime) : Task :=
  { t with status := .pending, updated_at := now, completed_at := none }

/-- `Task.change_priority`. -/
def Task.change_priority (t : Task) (priority : TaskPriority) (now : DateTime) : Task :=
  { t with priority := priority, updated_at := now }

/-- `Task.assign_to_user`. -/
def Task.assign_to_user (t : Task) (user_id : UUID) (now : DateTime) : Task :=
  { t with assigned_user_id := some user_id, updated_at := now }

/-- `Task.update_details`: each argument updates its field only when it is
not `None`. -/
def Task.update_details (t : Task) (title : Option String)
    (description : Option String) (due_date : Option DateTime)
    (now : DateTime) : Task :=
  { t with
    updated_at := now
    title := match title with | some s => s | none => t.title
    description := match description with | some s => some s | none => t.description
    due_date := match due_date with | some d => some d | none => t.due_date }

/-- `Task.is_completed` property. -/
def Task.is_completed (t : Task) : Bool :=
  t.status = TaskStatus.completed

/-- `app/domain/models/task_list.py`: the frozen pydantic `TaskList` entity. -/
structure TaskList where
  id : UUID
  name : String
  description : Option String
  owner_id : UUID
  created_at : DateTime
  updated_at : DateTime
  is_active : Bool
deriving DecidableEq, Repr

/-- `TaskList.update_details`: each argument updates its field only when it
is not `None`. -/
def TaskList.update_details (tl : TaskList) (name : Option String)
    (description : Option String) (now : DateTime) : TaskList :=
  { tl with
    updated_at := now
    name := match name with | some s => s | none => tl.name
    description := match description with | some s => some s | none => tl.description }

/-- `app/domain/models/user.py`: the frozen pydantic `User` entity. -/
structure User where
  id : UUID
  email : String
  username : String
  full_name : String
  is_active : Bool
  created_at : DateTime
  updated_at : DateTime
  last_login : Option DateTime
deriving DecidableEq, Repr

/-- `User.update_profile`: each argument updates its field only when it is
not `None`. -/
def User.update_profile (u : User) (username : Option String)
    (full_name : Option String) (email : Option String)
    (now : DateTime) : User :=
  { u with
    updated_at := now
    username := match username with | some s => s | none => u.username
    full_name := match full_name with | some s => s | none => u.full_name
    email := match email with | some s => s | none => u.email }

/-! ## Repositories and errors -/

/-- `app/domain/repositories/task_repository.py`, restricted to the lookups
the claims exercise.  `create` and `update` return the entity they persist. -/
structure TaskRepository where
  get_by_id : UUID → Option Task

/-- `app/domain/repositories/task_list_repository.py` lookup. -/
structure TaskListRepository where
  get_by_id : UUID → Option TaskList

/-- `app/domain/repositories/user_repository.py` lookups.  `get_by_username`
and `get_by_email` may either return `None` or raise `UserNotFoundError`
(both implementations occur in the wild, and
`UserDomainService` handles both); `.error ()` stands for the raised
`UserNotFoundError`, `.ok none` for a `None` result. -/
structure UserRepository where
  get_by_id : UUID → Option User
  get_by_username : String → Except Unit (Option User)
  get_by_email : String → Except Unit (Option User)

/-- The repositories wired into the services by the dependency container. -/
structure Repos where
  tasks : TaskRepository
  task_lists : TaskListRepository
  users : UserRepository

/-- The exceptions the embedded code raises
(`app/domain/exceptions`, plus Python `ValueError`/`AttributeError`). -/
inductive AppError
  | taskNotFound (msg : String)
  | taskListNotFound (msg : String)
  | userNotFound (msg : String)
  | userAlreadyExists (field value : String)
  | valueError (msg : String)
  | attributeError (msg : String)
deriving DecidableEq, Repr

/-! ## Domain services -/

/-- `TaskDomainService.validate_task_assignment`: `None` is always valid
(unassigning); otherwise the user must exist and be active. -/
def TaskDomainService.validate_task_assignment (r : Repos)
    (_task_id : UUID) (assigned_user_id : Option UUID) : Bool :=
  match assigned_user_id with
  | none => true
  | some uid =>
    match r.users.get_by_id uid with
    | none => false
    | some user => user.is_active

/-- Python `timedelta.days` for `now - earlier`: the duration in whole days,
floor division of the elapsed seconds by 86400 (timedelta normalisation
floors toward minus infinity). -/
def daysBetween (earlier now : DateTime) : Int :=
  Int.fdiv (now - earlier) 86400

/-- `TaskDomainService.can_task_be_deleted`: `(False, "Task not found")`
when the id resolves to no task; `(False, <archival message>)` when the
task is completed, has a completion timestamp, and
`(now - completed_at).days > 30`; `(True, "Task can be deleted")` otherwise. -/
def TaskDomainService.can_task_be_deleted (r : Repos) (task_id : UUID)
    (now : DateTime) : Bool × String :=
  match r.tasks.get_by_id task_id with
  | none => (false, "Task not found")
  | some task =>
    if task.status = TaskStatus.completed then
      match task.completed_at with
      | some c =>
        if 30 < daysBetween c now then
          (false, "Completed tasks older than 30 days should be archived instead of deleted")
        else
          (true, "Task can be deleted")
      | none => (true, "Task can be deleted")
    else
      (true, "Task can be deleted")

/-- `TaskDomainService.validate_due_date_consistency`: a completed task with
both a due date and a completion timestamp must satisfy
`completed_at <= due_date`; every other task is consistent. -/
def TaskDomainService.validate_due_date_consistency (task : Task) : Bool :=
  if task.status = TaskStatus.completed then
    match task.due_date, task.completed_at with
    | some due, some comp => comp ≤ due
    | _, _ => true
  else
    true

/-- Python `str.isalnum()` (ASCII range): false on the empty string, else
every character alphanumeric. -/
def pyIsAlnum (s : String) : Bool :=
  !s.data.isEmpty && s.data.all Char.isAlphanum

/-- Python `username.replace("_", "")`: drop every underscore. -/
def removeUnderscores (s : String) : String :=
  String.mk (s.data.filter (fun c => c ≠ '_'))

/-- Python `username.startswith("_")`. -/
def startsWithUnderscore (s : String) : Bool :=
  match s.data with
  | [] => false
  | c :: _ => c = '_'

/-- `UserDomainService.validate_username_availability`: length at least 3,
alphanumeric apart from non-leading underscores, and not held by a user
other than `exclude_user_id`; a `UserNotFoundError` from the lookup is
swallowed (the name is available). -/
def UserDomainService.validate_username_availability (r : Repos)
    (username : String) (exclude_user_id : Option String) : Bool :=
  if username.length < 3 then
    false
  else if !pyIsAlnum (removeUnderscores username) || startsWithUnderscore username then
    false
  else
    match r.users.get_by_username username with
    | .error () => true
    | .ok none => true
    | .ok (some existing_user) =>
      if (match exclude_user_id with
          | none => true
          | some ex => toString existing_user.id ≠ ex) then
        false
      else
        true

/-- `UserDomainService.validate_email_availability`: available unless a user
other than `exclude_user_id` holds the email; a `UserNotFoundError` from the
lookup is swallowed. -/
def UserDomainService.validate_email_availability (r : Repos)
    (email : String) (exclude_user_id : Option String) : Bool :=
  match r.users.get_by_email email with
  | .error () => true
  | .ok none => true
  | .ok (some existing_user) =>
    if (match exclude_user_id with
        | none => true
        | some ex => toString existing_user.id ≠ ex) then
      false
    else
      true

/-! ## Application services -/

/-- `TaskValidationService._validate_task_assignment`: raise
`UserNotFoundError` when the domain check fails and a user id was given. -/
def TaskValidationService.validate_assignment_or_raise (r : Repos)
    (task_id : UUID) (assigned_user_id : Option UUID) : Except AppError Unit :=
  if TaskDomainService.validate_task_assignment r task_id assigned_user_id then
    .ok ()
  else
    match assigned_user_id with
    | some _ => .error (.userNotFound "assigned user not found or is inactive")
    | none => .ok ()

/-- `TaskValidationService.validate_task_creation`.  The
task-list-ownership block of the source (`task_validation_service.py`
lines 32-39) is commented out there, so no task-list check appears here:
only the assignment check (when an assignee is given) and the
due-date-consistency check run. -/
def TaskValidationService.validate_task_creation (r : Repos)
    (task_data : Task) : Except AppError Unit := do
  if task_data.assigned_user_id.isSome then
    TaskValidationService.validate_assignment_or_raise r task_data.id
      task_data.assigned_user_id
  if TaskDomainService.validate_due_date_consistency task_data then
    pure ()
  else
    throw (.valueError "Due date is inconsistent with task status")

/-- `TaskValidationService.validate_task_assignment_update`: delegates to
`_validate_task_assignment`. -/
def TaskValidationService.validate_task_assignment_update (r : Repos)
    (task_id : UUID) (assigned_user_id : Option UUID) : Except AppError Unit :=
  TaskValidationService.validate_assignment_or_raise r task_id assigned_user_id

/-- `UserValidationService._validate_email_availability`: skipped when the
email equals `existing_user`'s; otherwise the domain service is called with
no exclusion and a conflict raises `UserAlreadyExistsError("Email", email)`. -/
def UserValidationService.check_email (r : Repos) (email : String)
    (existing_user : Option User) : Except AppError Unit :=
  if (match existing_user with
      | some eu => email == eu.email
      | none => false) then
    .ok ()
  else if UserDomainService.validate_email_availability r email none then
    .ok ()
  else
    .error (.userAlreadyExists "Email" email)

/-- `UserValidationService._validate_username_availability`: skipped when
the username equals `existing_user`'s; otherwise the domain service is
called with no exclusion and an unavailable result raises
`UserAlreadyExistsError("Username", username)`. -/
def UserValidationService.check_username (r : Repos) (username : String)
    (existing_user : Option User) : Except AppError Unit :=
  if (match existing_user with
      | some eu => username == eu.username
      | none => false) then
    .ok ()
  else if UserDomainService.validate_username_availability r username none then
    .ok ()
  else
    .error (.userAlreadyExists "Username" username)

/-- `UserValidationService.validate_user_availability`: email first, then
username. -/
def UserValidationService.validate_user_availability (r : Repos)
    (user_data : User) (existing_user : Option User) : Except AppError Unit := do
  UserValidationService.check_email r user_data.email existing_user
  UserValidationService.check_username r user_data.username existing_user

/-! ## Use cases -/

/-- `CreateTaskUseCase.execute`: validate, then persist.
`task_repository.create` returns the created task; it is modelled as
returning `task_data` itself. -/
def CreateTaskUseCase.execute (r : Repos) (task_data : Task) :
    Except AppError Task := do
  TaskValidationService.validate_task_creation r task_data
  pure task_data

/-- `UpdateTaskAssignmentUseCase.execute`.  In the unassignment branch the
source calls `existing_task.unassign()`, but the `Task` model
(`app/domain/models/task.py`) defines no `unassign` method, so that
attribute access raises `AttributeError` at runtime; the branch is
therefore embedded as that error. -/
def UpdateTaskAssignmentUseCase.execute (r : Repos) (task_id : UUID)
    (assigned_user_id : Option UUID) (now : DateTime) : Except AppError Task := do
  let existing_task ←
    match r.tasks.get_by_id task_id with
    | none => throw (.taskNotFound "Task not found")
    | some t => pure t
  TaskValidationService.validate_task_assignment_update r task_id assigned_user_id
  let updated_task ←
    match assigned_user_id with
    | some uid => pure (existing_task.assign_to_user uid now)
    | none => throw (.attributeError "Task object has no attribute unassign")
  pure updated_task

/-- `GetTasksUseCase.execute`: validates `size > 0` then `page >= 1`, and
calls `task_repository.get_paginated` with
`offset = (page - 1) * size` and `limit = size`; the result models the
`(offset, limit)` pair handed to the repository. -/
def GetTasksUseCase.execute (page size : Int) : Except AppError (Int × Int) :=
  if size ≤ 0 then
    .error (.valueError "Page size must be greater than 0")
  else if page < 1 then
    .error (.valueError "Page number must be greater than 0")
  else
    .ok ((page - 1) * size, size)

/-- `PaginationParams.offset` property (`common_schemas.py`):
`(page - 1) * size`. -/
def PaginationParams.offset (page size : Int) : Int :=
  (page - 1) * size

/-- `GetUsersUseCase.execute`: performs no bounds validation of its own; it
calls `user_repository.get_paginated` with `offset = pagination.offset` and
`limit = pagination.size`; the result models the `(offset, limit)` pair
handed to the repository. -/
def GetUsersUseCase.execute (page size : Int) : Except AppError (Int × Int) :=
  .ok (PaginationParams.offset page size, size)

/-! ## Derived definitions used by the claims -/

/-- The completion invariant of `Task`: `completed_at` is non-null iff the
status is completed. -/
def Task.completionConsistent (t : Task) : Prop :=
  t.completed_at ≠ none ↔ t.status = TaskStatus.completed

/-- One argument tuple of a `Task.update_details` call:
title, description, due date, and the clock value at the call. -/
abbrev TaskUpdateCall := Option String × Option String × Option DateTime × DateTime

/-- Fold a sequence of `Task.update_details` calls over a task. -/
def Task.apply_update_calls (t : Task) (calls : List TaskUpdateCall) : Task :=
  calls.foldl (fun acc c => acc.update_details c.1 c.2.1 c.2.2.1 c.2.2.2) t

/-- One argument tuple of a `TaskList.update_details` call:
name, description, and the clock value at the call. -/
abbrev TaskListUpdateCall := Option String × Option String × DateTime

/-- Fold a sequence of `TaskList.update_details` calls over a task list. -/
def TaskList.apply_update_calls (tl : TaskList) (calls : List TaskListUpdateCall) : TaskList :=
  calls.foldl (fun acc c => acc.update_details c.1 c.2.1 c.2.2) tl

/-- Sample entities for witness instantiations. -/
def sampleTask : Task :=
  { id := 1, title := "Write the report", description := some "draft"
    status := TaskStatus.pending, priority := TaskPriority.medium
    task_list_id := 2, assigned_user_id := none
    created_at := 0, updated_at := 0, due_date := some 1000, completed_at := none }

def sampleTaskList : TaskList :=
  { id := 2, name := "Work", description := some "work items", owner_id := 3
    created_at := 0, updated_at := 0, is_active := true }

def sampleUser : User :=
  { id := 3, email := "ana@example.com", username := "ana_dev"
    full_name := "Ana Dev", is_active := true
    created_at := 0, updated_at := 0, last_login := none }

/-! ## Helper lemmas -/

lemma Task.update_details_description_ne_none (t : Task) (ti de : Option String)
    (dd : Option DateTime) (now : DateTime) (h : t.description ≠ none) :
    (t.update_details ti de dd now).description ≠ none := by
  cases de with
  | none => simpa [Task.update_details] using h
  | some d => simp [Task.update_details]

lemma Task.update_details_due_date_ne_none (t : Task) (ti de : Option String)
    (dd : Option DateTime) (now : DateTime) (h : t.due_date ≠ none) :
    (t.update_details ti de dd now).due_date ≠ none := by
  cases dd with
  | none => simpa [Task.update_details] using h
  | some d => simp [Task.update_details]

lemma TaskList.update_details_keeps_description (tl : TaskList)
    (na de : Option String) (now : DateTime) (h : tl.description ≠ none) :
    (tl.update_details na de now).description ≠ none := by
  cases de with
  | none => simpa [TaskList.update_details] using h
  | some d => simp [TaskList.update_details]

lemma Task.apply_update_calls_description_ne_none (calls : List TaskUpdateCall) :
    ∀ t : Task, t.description ≠ none →
      (t.apply_update_calls calls).description ≠ none := by
  induction calls with
  | nil => intro t h; simpa [Task.apply_update_calls] using h
  | cons c rest ih =>
    intro t h
    simpa [Task.apply_update_calls, List.foldl_cons] using
      ih _ (Task.update_details_description_ne_none t c.1 c.2.1 c.2.2.1 c.2.2.2 h)

lemma Task.apply_update_calls_due_date_ne_none (calls : List TaskUpdateCall) :
    ∀ t : Task, t.due_date ≠ none →
      (t.apply_update_calls calls).due_date ≠ none := by
  induction calls with
  | nil => intro t h; simpa [Task.apply_update_calls] using h
  | cons c rest ih =>
    intro t h
    simpa [Task.apply_update_calls, List.foldl_cons] using
      ih _ (Task.update_details_due_date_ne_none t c.1 c.2.1 c.2.2.1 c.2.2.2 h)

lemma TaskList.apply_calls_keep_description (calls : List TaskListUpdateCall) :
    ∀ tl : TaskList, tl.description ≠ none →
      (tl.apply_update_calls calls).description ≠ none := by
  induction calls with
  | nil => intro tl h; simpa [TaskList.apply_update_calls] using h
  | cons c rest ih =>
    intro tl h
    simpa [TaskList.apply_update_calls, List.foldl_cons] using
      ih _ (TaskList.update_details_keeps_description tl c.1 c.2.1 c.2.2 h)

/-! ## Claims -/

/-- C3: every `Task` transition preserves the invariant that `completed_at`
is non-null iff the status is COMPLETED: `mark_as_completed` establishes it
with a non-null timestamp, `mark_as_pending` and `mark_as_in_progress`
establish it by clearing `completed_at`, and `change_priority`,
`assign_to_user` and `update_details` change neither `status` nor
`completed_at`, hence preserve it. -/
theorem claim_C3 (t : Task) (now : DateTime) (p : TaskPriority) (uid : UUID)
    (ti de : Option String) (dd : Option DateTime) :
    (t.mark_as_completed now).status = TaskStatus.completed ∧
    (t.mark_as_completed now).completed_at = some now ∧
    Task.completionConsistent (t.mark_as_completed now) ∧
    (t.mark_as_pending now).status = TaskStatus.pending ∧
    (t.mark_as_pending now).completed_at = none ∧
    Task.completionConsistent (t.mark_as_pending now) ∧
    (t.mark_as_in_progress now).status = TaskStatus.in_progress ∧
    (t.mark_as_in_progress now).completed_at = none ∧
    Task.completionConsistent (t.mark_as_in_progress now) ∧
    (t.change_priority p now).status = t.status ∧
    (t.change_priority p now).completed_at = t.completed_at ∧
    (t.assign_to_user uid now).status = t.status ∧
    (t.assign_to_user uid now).completed_at = t.completed_at ∧
    (t.update_details ti de dd now).status = t.status ∧
    (t.update_details ti de dd now).completed_at = t.completed_at ∧
    (Task.completionConsistent t → Task.completionConsistent (t.change_priority p now)) ∧
    (Task.completionConsistent t → Task.completionConsistent (t.assign_to_user uid now)) ∧
    (Task.completionConsistent t → Task.completionConsistent (t.update_details ti de dd now)) := by
  unfold Task.completionConsistent Task.mark_as_completed Task.mark_as_pending
    Task.mark_as_in_progress Task.change_priority Task.assign_to_user Task.update_details
  simp

/-- Witness for C3 at a concrete task. -/
theorem claim_C3_witness :
    Task.completionConsistent (Task.change_priority sampleTask TaskPriority.high 5) := by
  obtain ⟨-, -, -, -, -, -, -, -, -, -, -, -, -, -, -, h, -, -⟩ :=
    claim_C3 sampleTask 5 TaskPriority.high 0 none none none
  exact h (by simp [Task.completionConsistent, sampleTask])

/-- C8: `update_details()` with no arguments on `Task` and `TaskList`, and
`update_profile()` with no arguments on `User`, leave every data field
unchanged and only advance `updated_at` (to the strictly later current
time). -/
theorem claim_C8 (t : Task) (tl : TaskList) (u : User) (now : DateTime) :
    t.update_details none none none now = { t with updated_at := now } ∧
    (t.updated_at < now → t.updated_at < (t.update_details none none none now).updated_at) ∧
    tl.update_details none none now = { tl with updated_at := now } ∧
    (tl.updated_at < now → tl.updated_at < (tl.update_details none none now).updated_at) ∧
    u.update_profile none none none now = { u with updated_at := now } ∧
    (u.updated_at < now → u.updated_at < (u.update_profile none none none now).updated_at) := by
  unfold Task.update_details TaskList.update_details User.update_profile
  simp

/-- Witness for C8 at concrete entities and a strictly later clock. -/
theorem claim_C8_witness :
    sampleTask.updated_at < (sampleTask.update_details none none none 5).updated_at ∧
    sampleTaskList.updated_at < (sampleTaskList.update_details none none 5).updated_at ∧
    sampleUser.updated_at < (sampleUser.update_profile none none none 5).updated_at := by
  obtain ⟨-, h1, -, h2, -, h3⟩ := claim_C8 sampleTask sampleTaskList sampleUser 5
  exact ⟨h1 (by decide), h2 (by decide), h3 (by decide)⟩

/-- C10: a `None` argument means "keep the current value", so no call to
`Task.update_details`, `TaskList.update_details` or `User.update_profile`
— indeed no sequence of such calls — can clear a non-null optional field
back to null. -/
theorem claim_C10 (t : Task) (tl : TaskList) (u : User)
    (ti de : Option String) (dd : Option DateTime) (now : DateTime)
    (tcalls : List TaskUpdateCall) (tlcalls : List TaskListUpdateCall)
    (un fn em : Option String) :
    (t.update_details none de dd now).title = t.title ∧
    (t.update_details ti none dd now).description = t.description ∧
    (t.update_details ti de none now).due_date = t.due_date ∧
    (tl.update_details none de now).name = tl.name ∧
    (tl.update_details ti none now).description = tl.description ∧
    (u.update_profile none fn em now).username = u.username ∧
    (u.update_profile un none em now).full_name = u.full_name ∧
    (u.update_profile un fn none now).email = u.email ∧
    (t.description ≠ none → (t.update_details ti de dd now).description ≠ none) ∧
    (t.due_date ≠ none → (t.update_details ti de dd now).due_date ≠ none) ∧
    (tl.description ≠ none → (tl.update_details ti de now).description ≠ none) ∧
    (t.description ≠ none → (t.apply_update_calls tcalls).description ≠ none) ∧
    (t.due_date ≠ none → (t.apply_update_calls tcalls).due_date ≠ none) ∧
    (tl.description ≠ none → (tl.apply_update_calls tlcalls).description ≠ none) := by
  refine ⟨by simp [Task.update_details], by simp [Task.update_details],
    by simp [Task.update_details], by simp [TaskList.update_details],
    by simp [TaskList.update_details], by simp [User.update_profile],
    by simp [User.update_profile], by simp [User.update_profile],
    Task.update_details_description_ne_none t ti de dd now,
    Task.update_details_due_date_ne_none t ti de dd now,
    TaskList.update_details_keeps_description tl ti de now,
    Task.apply_update_calls_description_ne_none tcalls t,
    Task.apply_update_calls_due_date_ne_none tcalls t,
    TaskList.apply_calls_keep_description tlcalls tl⟩

/-- Witness for C10: a concrete two-call sequence cannot clear the sample
task's description. -/
theorem claim_C10_witness :
    (sampleTask.apply_update_calls
        [(some "New title", none, none, 5), (none, some "New text", none, 9)]).description
      ≠ none := by
  obtain ⟨-, -, -, -, -, -, -, -, -, -, -, h, -, -⟩ :=
    claim_C10 sampleTask sampleTaskList sampleUser none none none 5
      [(some "New title", none, none, 5), (none, some "New text", none, 9)] [] none none none
  exact h (by simp [sampleTask])

/-- C4: `can_task_be_deleted` returns `(False, "Task not found")` for an
absent id, `(False, <archival message>)` for a task completed more than 30
whole days before `now`, and `(True, "Task can be deleted")` in every other
case. -/
theorem claim_C4 (r : Repos) (task_id : UUID) (now : DateTime) :
    (r.tasks.get_by_id task_id = none →
      TaskDomainService.can_task_be_deleted r task_id now = (false, "Task not found")) ∧
    (∀ task c, r.tasks.get_by_id task_id = some task →
      task.status = TaskStatus.completed → task.completed_at = some c →
      30 < daysBetween c now →
      TaskDomainService.can_task_be_deleted r task_id now =
        (false, "Completed tasks older than 30 days should be archived instead of deleted")) ∧
    (∀ task, r.tasks.get_by_id task_id = some task →
      ¬(task.status = TaskStatus.completed ∧
        ∃ c, task.completed_at = some c ∧ 30 < daysBetween c now) →
      TaskDomainService.can_task_be_deleted r task_id now = (true, "Task can be deleted")) := by
  refine ⟨fun h => by simp [TaskDomainService.can_task_be_deleted, h], ?_, ?_⟩
  · intro task c hget hst hca hdays
    simp [TaskDomainService.can_task_be_deleted, hget, hst, hca, hdays]
  · intro task hget hnot
    unfold TaskDomainService.can_task_be_deleted
    rw [hget]
    by_cases hst : task.status = TaskStatus.completed
    · cases hca : task.completed_at with
      | none => simp [hst, hca]
      | some c =>
        have hle : ¬(30 < daysBetween c now) := fun hlt => hnot ⟨hst, c, hca, hlt⟩
        simp [hst, hca, hle]
    · simp [hst]

/-- A completed task whose completion lies 31 whole days before the witness
clock `2678400 = 31 * 86400`. -/
def staleDoneTask : Task :=
  { id := 1, title := "stale", description := none
    status := TaskStatus.completed, priority := TaskPriority.low
    task_list_id := 2, assigned_user_id := none
    created_at := 0, updated_at := 0, due_date := none, completed_at := some 0 }

def claim_C4_repos : Repos :=
  { tasks := ⟨fun i => if i = 1 then some staleDoneTask else none⟩
    task_lists := ⟨fun _ => none⟩
    users := ⟨fun _ => none, fun _ => Except.ok none, fun _ => Except.ok none⟩ }

/-- Witness for C4: the three cases at concrete inputs — a missing id, a
task completed 31 days ago, and the same task seen 10 days after
completion. -/
theorem claim_C4_witness :
    TaskDomainService.can_task_be_deleted claim_C4_repos 0 2678400 =
      (false, "Task not found") ∧
    TaskDomainService.can_task_be_deleted claim_C4_repos 1 2678400 =
      (false, "Completed tasks older than 30 days should be archived instead of deleted") ∧
    TaskDomainService.can_task_be_deleted claim_C4_repos 1 864000 =
      (true, "Task can be deleted") := by
  obtain ⟨h1, -, -⟩ := claim_C4 claim_C4_repos 0 2678400
  obtain ⟨-, h2, -⟩ := claim_C4 claim_C4_repos 1 2678400
  obtain ⟨-, -, h3⟩ := claim_C4 claim_C4_repos 1 864000
  refine ⟨h1 rfl, h2 staleDoneTask 0 rfl rfl rfl (by decide), h3 staleDoneTask rfl ?_⟩
  rintro ⟨-, c, hc, hlt⟩
  have hc0 : c = 0 := by simpa [staleDoneTask] using hc.symm
  subst hc0
  revert hlt
  decide

/-- C5 counterexample: with `page = 0` and `size = 5`,
`GetUsersUseCase.execute` does not raise `ValueError` as the claim states;
it calls the repository with `offset = -5` and `limit = 5`. -/
theorem claim_C5_counterexample :
    GetUsersUseCase.execute 0 5 = Except.ok (-5, 5) := by
  norm_num [GetUsersUseCase.execute, PaginationParams.offset]

/-- C5 (amended): only `GetTasksUseCase.execute` validates pagination,
raising `ValueError` when `size <= 0` or `page < 1` and otherwise calling
`get_paginated` with `offset = (page - 1) * size`, `limit = size`;
`GetUsersUseCase.execute` performs no validation of its own and always
calls `get_paginated` with `offset = (page - 1) * size`, `limit = size`. -/
theorem claim_C5_amended (page size : Int) :
    (size ≤ 0 →
      GetTasksUseCase.execute page size =
        Except.error (AppError.valueError "Page size must be greater than 0")) ∧
    (0 < size → page < 1 →
      GetTasksUseCase.execute page size =
        Except.error (AppError.valueError "Page number must be greater than 0")) ∧
    (0 < size → 1 ≤ page →
      GetTasksUseCase.execute page size = Except.ok ((page - 1) * size, size)) ∧
    GetUsersUseCase.execute page size = Except.ok ((page - 1) * size, size) := by
  refine ⟨fun h => by simp [GetTasksUseCase.execute, h], fun hs hp => ?_,
    fun hs hp => ?_, rfl⟩
  · simp [GetTasksUseCase.execute, not_le.mpr hs, hp]
  · simp [GetTasksUseCase.execute, not_le.mpr hs, not_lt.mpr hp]

/-- Witness for C5 (amended) at concrete pagination inputs. -/
theorem claim_C5_witness :
    GetTasksUseCase.execute 0 5 =
      Except.error (AppError.valueError "Page number must be greater than 0") ∧
    GetTasksUseCase.execute 2 10 = Except.ok (10, 10) ∧
    GetUsersUseCase.execute 2 10 = Except.ok (10, 10) := by
  obtain ⟨-, h2, -, -⟩ := claim_C5_amended 0 5
  obtain ⟨-, -, h3, h4⟩ := claim_C5_amended 2 10
  exact ⟨h2 (by decide) (by decide), h3 (by decide) (by decide), h4⟩

/-- A task whose `task_list_id` matches no stored task list. -/
def orphanTask : Task :=
  { id := 1, title := "orphan", description := none
    status := TaskStatus.pending, priority := TaskPriority.medium
    task_list_id := 99, assigned_user_id := none
    created_at := 0, updated_at := 0, due_date := none, completed_at := none }

def emptyRepos : Repos :=
  { tasks := ⟨fun _ => none⟩
    task_lists := ⟨fun _ => none⟩
    users := ⟨fun _ => none, fun _ => Except.ok none, fun _ => Except.ok none⟩ }

/-- C1 evaluated at the failing input: `task_list_id = 99` references no
task list, yet `CreateTaskUseCase.execute` does not raise — it reaches the
repository and returns the created task, because the task-list-existence
block in `validate_task_creation` is commented out in the source. -/
theorem claim_C1_eval :
    emptyRepos.task_lists.get_by_id orphanTask.task_list_id = none ∧
    CreateTaskUseCase.execute emptyRepos orphanTask = Except.ok orphanTask :=
  ⟨rfl, rfl⟩

/-- A stored task currently assigned to user 3. -/
def assignedTask : Task :=
  { id := 7, title := "assigned", description := none
    status := TaskStatus.in_progress, priority := TaskPriority.high
    task_list_id := 2, assigned_user_id := some 3
    created_at := 0, updated_at := 0, due_date := none, completed_at := none }

def claim_C2_repos : Repos :=
  { tasks := ⟨fun i => if i = 7 then some assignedTask else none⟩
    task_lists := ⟨fun _ => none⟩
    users := ⟨fun i => if i = 3 then some sampleUser else none,
      fun _ => Except.ok none, fun _ => Except.ok none⟩ }

/-- C2 evaluated at the failing input: the task exists and unassigning
(`assigned_user_id = None`) passes validation, but execution raises
`AttributeError` because the source calls `existing_task.unassign()` and
`Task` defines no `unassign` method — it does not return the task with the
assignment cleared. -/
theorem claim_C2_eval :
    claim_C2_repos.tasks.get_by_id 7 = some assignedTask ∧
    UpdateTaskAssignmentUseCase.execute claim_C2_repos 7 none 100 =
      Except.error (AppError.attributeError "Task object has no attribute unassign") :=
  ⟨rfl, rfl⟩

/-! ## Username format helpers -/

/-- The claim-side description of a format-invalid username (once it is at
least 3 characters long): a leading underscore, or a character that is
neither alphanumeric nor an underscore. -/
def badFormat (u : String) : Prop :=
  u.data.head? = some '_' ∨ ∃ c ∈ u.data, ¬(c.isAlphanum = true ∨ c = '_')

lemma startsWithUnderscore_true_iff (u : String) :
    startsWithUnderscore u = true ↔ u.data.head? = some '_' := by
  unfold startsWithUnderscore
  cases u.data with
  | nil => simp
  | cons c cs => simp [List.head?]

lemma rule2_true_iff (u : String) (hne : u.data ≠ []) :
    (!pyIsAlnum (removeUnderscores u) || startsWithUnderscore u) = true ↔ badFormat u := by
  unfold pyIsAlnum removeUnderscores badFormat
  dsimp only
  rw [Bool.or_eq_true, startsWithUnderscore_true_iff]
  constructor
  · rintro (hfail | hhead)
    · rw [Bool.not_eq_true', Bool.and_eq_false_iff] at hfail
      rcases hfail with hempty | hall
      · left
        rw [Bool.not_eq_false', List.isEmpty_iff] at hempty
        have hund : ∀ c ∈ u.data, c = '_' := by
          intro c hc
          by_contra hcne
          have : c ∈ List.filter (fun c => decide (c ≠ '_')) u.data :=
            List.mem_filter.mpr ⟨hc, by simpa using hcne⟩
          rw [hempty] at this
          simp at this
        obtain ⟨c, cs, hcons⟩ := List.exists_cons_of_ne_nil hne
        rw [hcons]
        simpa using hund c (by simp [hcons])
      · right
        rw [List.all_eq_false] at hall
        obtain ⟨c, hcmem, hcal⟩ := hall
        obtain ⟨hcu, hcne⟩ := List.mem_filter.mp hcmem
        exact ⟨c, hcu, by simp at hcne; simpa [hcne] using hcal⟩
    · exact Or.inl hhead
  · rintro (hhead | ⟨c, hcmem, hbad⟩)
    · exact Or.inr hhead
    · left
      rw [Bool.not_eq_true', Bool.and_eq_false_iff]
      right
      rw [List.all_eq_false]
      push_neg at hbad
      exact ⟨c, List.mem_filter.mpr ⟨hcmem, by simpa using hbad.2⟩,
        by simpa using hbad.1⟩

/-- The full description of `validate_username_availability` returning
`False`: too short, leading underscore, a character outside alphanumerics
and underscores, or held by a user not excluded by `exclude_user_id`;
in particular a `UserNotFoundError` from the lookup never produces `False`. -/
lemma validate_username_false_iff (r : Repos) (u : String) (ex : Option String) :
    UserDomainService.validate_username_availability r u ex = false ↔
      (u.length < 3 ∨ u.data.head? = some '_' ∨
        (∃ c ∈ u.data, ¬(c.isAlphanum = true ∨ c = '_')) ∨
        (∃ usr, r.users.get_by_username u = Except.ok (some usr) ∧
          (match ex with | none => True | some e => toString usr.id ≠ e))) := by
  unfold UserDomainService.validate_username_availability
  by_cases h3 : u.length < 3
  · simp [h3]
  · rw [if_neg h3]
    have hne : u.data ≠ [] := by
      intro hnil
      exact h3 (by simp [String.length, hnil])
    by_cases h2 : (!pyIsAlnum (removeUnderscores u) || startsWithUnderscore u) = true
    · rw [if_pos h2]
      have hbad := (rule2_true_iff u hne).mp h2
      simp only [eq_self_iff_true, true_iff]
      unfold badFormat at hbad
      rcases hbad with hh | hb
      · exact Or.inr (Or.inl hh)
      · exact Or.inr (Or.inr (Or.inl hb))
    · rw [if_neg h2]
      have hnotbad : ¬badFormat u := fun hb => h2 ((rule2_true_iff u hne).mpr hb)
      unfold badFormat at hnotbad
      push_neg at hnotbad
      cases hlook : r.users.get_by_username u with
      | error e =>
        cases e
        simp only [Bool.true_eq_false, false_iff]
        push_neg
        refine ⟨not_lt.mp h3, hnotbad.1, fun c hc => ?_,
          fun usr husr => by simp [hlook] at husr⟩
        have := hnotbad.2 c hc
        tauto
      | ok o =>
        cases o with
        | none =>
          simp only [Bool.true_eq_false, false_iff]
          push_neg
          refine ⟨not_lt.mp h3, hnotbad.1, fun c hc => ?_,
            fun usr husr => by simp [hlook] at husr⟩
          have := hnotbad.2 c hc
          tauto
        | some usr =>
          dsimp only
          by_cases hex : (match ex with
              | none => true
              | some e => decide (toString usr.id ≠ e)) = true
          · rw [if_pos hex]
            simp only [eq_self_iff_true, true_iff]
            refine Or.inr (Or.inr (Or.inr ⟨usr, rfl, ?_⟩))
            cases ex with
            | none => trivial
            | some e => simpa using hex
          · rw [if_neg hex]
            simp only [Bool.true_eq_false, false_iff]
            push_neg
            refine ⟨not_lt.mp h3, hnotbad.1, fun c hc => ?_, fun usr' husr' hprop => ?_⟩
            · have := hnotbad.2 c hc
              tauto
            · have husr'' : usr' = usr := (Option.some.inj (Except.ok.inj husr')).symm
              subst husr''
              apply hex
              cases ex with
              | none => rfl
              | some e => simpa using hprop

/-- A format-invalid or too-short username is never available, whatever the
repository holds. -/
lemma validate_username_false_of_bad (r : Repos) (u : String) (ex : Option String)
    (h : u.length < 3 ∨ badFormat u) :
    UserDomainService.validate_username_availability r u ex = false := by
  apply (validate_username_false_iff r u ex).mpr
  unfold badFormat at h
  rcases h with h3 | hh | hb
  · exact Or.inl h3
  · exact Or.inr (Or.inl hh)
  · exact Or.inr (Or.inr (Or.inl hb))

/-- C6: `validate_username_availability` returns `False` exactly for a
username shorter than 3 characters, starting with an underscore, containing
a character that is neither alphanumeric nor an underscore, or held by a
user whose id differs from `exclude_user_id`; and a `UserNotFoundError`
raised by the lookup is swallowed, so a well-formed unused username is
available. -/
theorem claim_C6 (r : Repos) (username : String) (ex : Option String) :
    (UserDomainService.validate_username_availability r username ex = false ↔
      (username.length < 3 ∨ username.data.head? = some '_' ∨
        (∃ c ∈ username.data, ¬(c.isAlphanum = true ∨ c = '_')) ∨
        (∃ usr, r.users.get_by_username username = Except.ok (some usr) ∧
          (match ex with | none => True | some e => toString usr.id ≠ e)))) ∧
    (r.users.get_by_username username = Except.error () →
      ¬(username.length < 3 ∨ username.data.head? = some '_' ∨
        ∃ c ∈ username.data, ¬(c.isAlphanum = true ∨ c = '_')) →
      UserDomainService.validate_username_availability r username ex = true) := by
  refine ⟨validate_username_false_iff r username ex, fun herr hok => ?_⟩
  cases hval : UserDomainService.validate_username_availability r username ex with
  | false =>
    exfalso
    have hfalse := (validate_username_false_iff r username ex).mp hval
    rcases hfalse with h | h | h | ⟨usr, husr, -⟩
    · exact hok (Or.inl h)
    · exact hok (Or.inr (Or.inl h))
    · exact hok (Or.inr (Or.inr h))
    · rw [herr] at husr
      exact Except.noConfusion husr
  | true => rfl

/-- A user store whose username lookup raises `UserNotFoundError` and whose
email lookup returns `None`. -/
def claim_C6_repos : Repos :=
  { tasks := ⟨fun _ => none⟩
    task_lists := ⟨fun _ => none⟩
    users := ⟨fun _ => none, fun _ => Except.error (), fun _ => Except.ok none⟩ }

/-- Witness for C6: the spec's four example usernames against a store where
the lookup raises `UserNotFoundError`. -/
theorem claim_C6_witness :
    UserDomainService.validate_username_availability claim_C6_repos "abc_def" none = true ∧
    UserDomainService.validate_username_availability claim_C6_repos "ab" none = false ∧
    UserDomainService.validate_username_availability claim_C6_repos "_abc" none = false ∧
    UserDomainService.validate_username_availability claim_C6_repos "ab-c" none = false :=
  ⟨(claim_C6 claim_C6_repos "abc_def" none).2 rfl (by decide),
    (claim_C6 claim_C6_repos "ab" none).1.mpr (Or.inl (by decide)),
    (claim_C6 claim_C6_repos "_abc" none).1.mpr (Or.inr (Or.inl (by decide))),
    (claim_C6 claim_C6_repos "ab-c" none).1.mpr (Or.inr (Or.inr (Or.inl (by decide))))⟩

/-- C7: `validate_user_availability` raises `UserAlreadyExistsError` for a
changed email (or, with email unchanged, a changed username) that another
stored user holds, skips the check for a field equal to `existing_user`'s,
and never raises on a self-update that changes neither field. -/
theorem claim_C7 (r : Repos) (user_data : User) (eu : User) :
    (∀ holder, user_data.email ≠ eu.email →
      r.users.get_by_email user_data.email = Except.ok (some holder) →
      UserValidationService.validate_user_availability r user_data (some eu) =
        Except.error (AppError.userAlreadyExists "Email" user_data.email)) ∧
    (∀ holder, user_data.email = eu.email → user_data.username ≠ eu.username →
      r.users.get_by_username user_data.username = Except.ok (some holder) →
      UserValidationService.validate_user_availability r user_data (some eu) =
        Except.error (AppError.userAlreadyExists "Username" user_data.username)) ∧
    (user_data.email = eu.email → user_data.username = eu.username →
      UserValidationService.validate_user_availability r user_data (some eu) =
        Except.ok ()) := by
  refine ⟨?_, ?_, ?_⟩
  · intro holder hne hlook
    have hbeq : (user_data.email == eu.email) = false := by
      simpa using hne
    simp [UserValidationService.validate_user_availability,
      UserValidationService.check_email, hbeq,
      UserDomainService.validate_email_availability, hlook,
      Bind.bind, Except.bind]
  · intro holder heq hneu hlook
    have hbequ : (user_data.username == eu.username) = false := by
      simpa using hneu
    have hv : UserDomainService.validate_username_availability r user_data.username none
        = false :=
      (validate_username_false_iff r user_data.username none).mpr
        (Or.inr (Or.inr (Or.inr ⟨holder, hlook, trivial⟩)))
    simp [UserValidationService.validate_user_availability,
      UserValidationService.check_email, heq,
      UserValidationService.check_username, hbequ, hv,
      Bind.bind, Except.bind]
  · intro heq hequ
    simp [UserValidationService.validate_user_availability,
      UserValidationService.check_email, heq,
      UserValidationService.check_username, hequ,
      Bind.bind, Except.bind]

/-- A stored user holding the email and username another user might want. -/
def takenUser : User :=
  { id := 9, email := "bob@example.com", username := "bob_w"
    full_name := "Bob W", is_active := true
    created_at := 0, updated_at := 0, last_login := none }

def claim_C7_repos : Repos :=
  { tasks := ⟨fun _ => none⟩
    task_lists := ⟨fun _ => none⟩
    users := ⟨fun i => if i = 9 then some takenUser else if i = 3 then some sampleUser else none,
      fun s => if s = "bob_w" then Except.ok (some takenUser) else Except.ok none,
      fun s => if s = "bob@example.com" then Except.ok (some takenUser) else Except.ok none⟩ }

/-- Witness for C7: changing the sample user's email to a taken one raises
the email conflict; a self-update keeping both fields raises nothing. -/
theorem claim_C7_witness :
    UserValidationService.validate_user_availability claim_C7_repos
        { sampleUser with email := "bob@example.com" } (some sampleUser) =
      Except.error (AppError.userAlreadyExists "Email" "bob@example.com") ∧
    UserValidationService.validate_user_availability claim_C7_repos
        sampleUser (some sampleUser) = Except.ok () := by
  obtain ⟨h1, -, -⟩ :=
    claim_C7 claim_C7_repos { sampleUser with email := "bob@example.com" } sampleUser
  obtain ⟨-, -, h3⟩ := claim_C7 claim_C7_repos sampleUser sampleUser
  exact ⟨h1 takenUser (by decide) rfl, h3 rfl rfl⟩

/-- C9: a format-invalid username that differs from `existing_user`'s (with
the email check passing) surfaces as
`UserAlreadyExistsError("Username", value)` from
`validate_user_availability`, not as a `ValueError` or a distinct
validation error: the domain service's single boolean conflates format
failure with a name collision. -/
theorem claim_C9 (r : Repos) (user_data : User) (existing_user : Option User)
    (hfmt : user_data.username.length < 3 ∨
      user_data.username.data.head? = some '_' ∨
      ∃ c ∈ user_data.username.data, ¬(c.isAlphanum = true ∨ c = '_'))
    (hdiff : match existing_user with
      | some eu => user_data.username ≠ eu.username
      | none => True)
    (hemail : UserValidationService.check_email r user_data.email existing_user =
      Except.ok ()) :
    UserValidationService.validate_user_availability r user_data existing_user =
      Except.error (AppError.userAlreadyExists "Username" user_data.username) := by
  have hv : UserDomainService.validate_username_availability r user_data.username none
      = false := by
    apply validate_username_false_of_bad
    unfold badFormat
    rcases hfmt with a | b | c
    · exact Or.inl a
    · exact Or.inr (Or.inl b)
    · exact Or.inr (Or.inr c)
  unfold UserValidationService.validate_user_availability
  rw [hemail]
  cases existing_user with
  | none =>
    simp [UserValidationService.check_username, hv, Bind.bind, Except.bind]
  | some eu =>
    have hbequ : (user_data.username == eu.username) = false := by
      simpa using hdiff
    simp [UserValidationService.check_username, hbequ, hv, Bind.bind, Except.bind]

/-- Witness for C9: a two-character username on a self-update is reported
as a username conflict. -/
theorem claim_C9_witness :
    UserValidationService.validate_user_availability claim_C6_repos
        { sampleUser with username := "ab" } (some sampleUser) =
      Except.error (AppError.userAlreadyExists "Username" "ab") :=
  claim_C9 claim_C6_repos { sampleUser with username := "ab" } (some sampleUser)
    (Or.inl (by decide)) (by decide) rfl

end PyTasks
